import Mathlib

/-!
Verification of the bulwark adaptive throttle (`adaptive.go`).

The Go source defines an `AdaptiveThrottle` holding, per priority level, a
request counter and an accept counter (rolling-window counters), and a single
generic operation `WithAdaptiveThrottle` that computes a rejection probability
from the counter values, randomly self-rejects, and otherwise runs the
caller's work function, recording the outcome.

Modelling decisions:
- `time.Time` / `time.Duration` are modelled as `Nat` nanoseconds.
- `float64` arithmetic of the probability computation is modelled over `ℚ`
  (note: in `ℚ`, division by zero yields 0 where Go's float64 would yield
  NaN or ±Inf; the places where this matters are noted at the theorems).
- Go panics (out-of-range slice index, `make` with negative length) are
  modelled by returning `none`.
- the random draw `rand.Float64()` is passed in as an explicit parameter
  `r : ℚ` with `0 ≤ r < 1` assumed where needed.
- the generic result type `T` and the caller's `f func() (T, error)` are
  modelled by passing `f`'s eventual return pair `(fval, ferr)` explicitly;
  the outcome records in `fCalls` how many times the code path invoked `f`.
- Go `error` values are modelled by `Option GoError` (`none` = nil error).
-/

/-- Modelled from the spec: the `faults` error taxonomy is an external
collaborator (package `github.com/deixis/faults`, not part of this
repository). An error value is modelled as a classification kind plus a
retry-after duration (for `faults.Unavailable`) and an arbitrary tag so that
distinct error values with the same kind exist. -/
inductive FaultKind where
  | canceled
  | unauthenticated
  | permissionDenied
  | bad
  | aborted
  | notFound
  | failedPrecondition
  | unimplemented
  | unavailable
  | other
  deriving DecidableEq, Repr

/-- Modelled from the spec: a Go `error` value as seen by the throttle. -/
structure GoError where
  kind : FaultKind
  retryAfterNanos : Nat := 0
  tag : Nat := 0
  deriving DecidableEq, Repr

/-- Transcribes `DefaultAcceptedErrors` from `adaptive.go`: an error is accepted (not
counted towards throttling) when it is a cancellation, unauthenticated,
permission-denied, bad-request, aborted, not-found, failed-precondition or
unimplemented condition. The individual `faults.IsX` predicates are modelled
as kind tests. -/
def DefaultAcceptedErrors (err : GoError) : Bool :=
  err.kind = FaultKind.canceled ||
    err.kind = FaultKind.unauthenticated ||
    err.kind = FaultKind.permissionDenied ||
    err.kind = FaultKind.bad ||
    err.kind = FaultKind.aborted ||
    err.kind = FaultKind.notFound ||
    err.kind = FaultKind.failedPrecondition ||
    err.kind = FaultKind.unimplemented

/-- Transcribes `DefaultClientSideRejectionError = faults.Unavailable(time.Second)`
from `adaptive.go`: the distinguished client-side rejection error, carrying a
retry-after of one second (10^9 ns). -/
def DefaultClientSideRejectionError : GoError :=
  { kind := FaultKind.unavailable, retryAfterNanos := 1000000000 }

/-- Modelled from the spec: `Priority` (declared outside `adaptive.go`) is an
integer identifying a traffic class; lower value = higher importance. -/
abbrev Priority : Type := Int

/-- Modelled from the spec: the rolling window counter (`windowedCounter`,
declared outside `adaptive.go`). It tracks an approximate count of events
over a trailing duration divided into `buckets` equal slots of `width`
nanoseconds. Each slot records the bucket index (the quantized timestamp
`t / width`) it currently holds, together with its event count. -/
structure windowedCounter where
  width : Nat
  buckets : Nat
  slots : List (Nat × Nat)
  deriving DecidableEq, Repr

namespace windowedCounter

/-- Modelled from the spec: `newWindowedCounter(now, width, count)` creates a
counter with `count` zeroed slots stamped with the current bucket. -/
def new (now width count : Nat) : windowedCounter :=
  { width := width, buckets := count
    slots := List.replicate count (now / width, 0) }

/-- Modelled from the spec: `add(t, n)` records `n` events at time `t`. The
slot is the bucket index modulo the slot count; if the slot holds an earlier
bucket it is reset to zero and restamped before adding. -/
def add (c : windowedCounter) (t n : Nat) : windowedCounter :=
  let b := t / c.width
  let i := b % c.buckets
  let s := c.slots.getD i (0, 0)
  { c with slots := c.slots.set i (b, (if s.1 = b then s.2 else 0) + n) }

/-- Modelled from the spec: `get(t)` sums the slots that are still inside the
trailing window at time `t`; a slot whose bucket fell out of the window
(more than `buckets` bucket-widths ago, quantized) contributes zero. -/
def get (c : windowedCounter) (t : Nat) : Nat :=
  let bc := t / c.width
  (c.slots.map (fun s => if bc < s.1 + c.buckets then s.2 else 0)).sum

end windowedCounter

/-- The value of the `i`-th counter of a counter array at time `t`; reading an
out-of-range index is only ever done under the in-range guard of
`withAdaptiveThrottle` and is given the harmless value 0 here. -/
def counterVal (cs : List windowedCounter) (i : Nat) (t : Nat) : Nat :=
  match cs[i]? with
  | some c => c.get t
  | none => 0

/-- The `AdaptiveThrottle` struct from `adaptive.go` (the mutex is elided:
the embedding is sequential, matching the lock-protected snapshots). -/
structure AdaptiveThrottle where
  k : ℚ
  minPerWindow : ℚ
  isErrorAccepted : GoError → Bool
  requests : List windowedCounter
  accepts : List windowedCounter

/-- The `adaptiveThrottleOptions` struct from `adaptive.go`. -/
structure adaptiveThrottleOptions where
  k : ℚ
  minRate : ℚ
  d : Nat
  isErrorAccepted : GoError → Bool

/-- The `AdaptiveThrottleOption` struct from `adaptive.go`: a wrapped mutator
of the options struct. -/
structure AdaptiveThrottleOption where
  f : adaptiveThrottleOptions → adaptiveThrottleOptions

/-- Transcribes `WithAdaptiveThrottleRatio` from `adaptive.go`. -/
def WithAdaptiveThrottleRatio (k : ℚ) : AdaptiveThrottleOption :=
  ⟨fun opts => { opts with k := k }⟩

/-- Transcribes `WithAdaptiveThrottleMinimumRate` from `adaptive.go`. -/
def WithAdaptiveThrottleMinimumRate (x : ℚ) : AdaptiveThrottleOption :=
  ⟨fun opts => { opts with minRate := x }⟩

/-- Transcribes `WithAdaptiveThrottleWindow` from `adaptive.go` (duration in ns). -/
def WithAdaptiveThrottleWindow (d : Nat) : AdaptiveThrottleOption :=
  ⟨fun opts => { opts with d := d }⟩

/-- Transcribes `WithAcceptedErrors` from `adaptive.go`. -/
def WithAcceptedErrors (fn : GoError → Bool) : AdaptiveThrottleOption :=
  ⟨fun opts => { opts with isErrorAccepted := fn }⟩

/-- The constant `time.Minute` as nanoseconds. -/
def timeMinute : Nat := 60000000000

/-- Computes `d.Seconds()` for a duration in nanoseconds, as a rational. -/
def durationSeconds (d : Nat) : ℚ := (d : ℚ) / 1000000000

/-- Transcribes `NewAdaptiveThrottle` from `adaptive.go`. Defaults: window one minute,
k = 2, minimum rate 1/sec, `DefaultAcceptedErrors`. Builds one request and
one accept counter per priority, each with 10 buckets of width `d/10`, and
sets `minPerWindow = minRate * d.Seconds()`. Go's `make` with a negative
length panics, modelled as `none`. -/
def NewAdaptiveThrottle (priorities : Int) (options : List AdaptiveThrottleOption)
    (now : Nat) : Option AdaptiveThrottle :=
  let opts0 : adaptiveThrottleOptions :=
    { d := timeMinute, k := 2, minRate := 1, isErrorAccepted := DefaultAcceptedErrors }
  let opts := options.foldl (fun o option => option.f o) opts0
  if priorities < 0 then
    none
  else
    let n := priorities.toNat
    some
      { k := opts.k
        requests := List.replicate n (windowedCounter.new now (opts.d / 10) 10)
        accepts := List.replicate n (windowedCounter.new now (opts.d / 10) 10)
        minPerWindow := opts.minRate * durationSeconds opts.d
        isErrorAccepted := opts.isErrorAccepted }

/-- The rejection-probability formula from line 155 of `adaptive.go`:
`math.Max(0, (requests-at.k*accepts)/(requests+at.minPerWindow))`. -/
def rejectionProbability (k minPerWindow requests accepts : ℚ) : ℚ :=
  max 0 ((requests - k * accepts) / (requests + minPerWindow))

/-- Lines 146–155 of `adaptive.go`: read the counters of priority `p` at time
`now`, add the non-accepted counts of every higher priority `i < p` to
`requests`, and compute the rejection probability. -/
def throttleRejectionProbability (th : AdaptiveThrottle) (p : Nat) (now : Nat) : ℚ :=
  let requests0 : ℚ := (counterVal th.requests p now : ℚ)
  let accepts : ℚ := (counterVal th.accepts p now : ℚ)
  let requests :=
    (List.range p).foldl
      (fun acc i =>
        acc + ((counterVal th.requests i now : ℚ) - (counterVal th.accepts i now : ℚ)))
      requests0
  rejectionProbability th.k th.minPerWindow requests accepts

/-- The observable outcome of one `WithAdaptiveThrottle` call: the returned
value and error, the updated throttle state, and how many times the caller's
work function `f` was invoked on the taken path. -/
structure ThrottleOutcome (T : Type) where
  val : T
  err : Option GoError
  st : AdaptiveThrottle
  fCalls : Nat

/-- The acceptance condition `err == nil || at.isErrorAccepted(err)` from
line 171 of `adaptive.go`, on an optional error (`none` = nil). -/
def errAccepted (isAcc : GoError → Bool) : Option GoError → Bool
  | none => true
  | some e => isAcc e

/-- Transcribes `WithAdaptiveThrottle` from `adaptive.go`. `p` out of `[0, len)` panics at
the slice index (modelled as `none`). `r` is the `rand.Float64()` draw;
`now` is the first `time.Now()` and `now2` the second one (taken after `f`
returns); `(fval, ferr)` is what `f` returns when invoked; `zero` is the Go
zero value of `T`. On self-rejection the request counter of `p` is bumped
and `(zero, DefaultClientSideRejectionError)` is returned without invoking
`f`; otherwise `f`'s pair is returned unchanged, a request is recorded, and
an accept is also recorded when `ferr` is nil or accepted. -/
def withAdaptiveThrottle {T : Type} (th : AdaptiveThrottle) (p : Priority) (r : ℚ)
    (now now2 : Nat) (fval : T) (ferr : Option GoError) (zero : T) :
    Option (ThrottleOutcome T) :=
  if 0 ≤ p ∧ p.toNat < th.requests.length ∧ p.toNat < th.accepts.length then
    if r < throttleRejectionProbability th p.toNat now then
      some
        { val := zero
          err := some DefaultClientSideRejectionError
          st :=
            { th with
              requests :=
                th.requests.set p.toNat ((th.requests.getD p.toNat ⟨0, 0, []⟩).add now 1) }
          fCalls := 0 }
    else
      some
        { val := fval
          err := ferr
          st :=
            { th with
              requests :=
                th.requests.set p.toNat ((th.requests.getD p.toNat ⟨0, 0, []⟩).add now2 1)
              accepts :=
                if errAccepted th.isErrorAccepted ferr then
                  th.accepts.set p.toNat ((th.accepts.getD p.toNat ⟨0, 0, []⟩).add now2 1)
                else
                  th.accepts }
          fCalls := 1 }
  else
    none

/-! ## Helper lemmas -/

/-- A fold of `acc + g i` over `List.range n` is the initial value plus the
sum of `g` over `Finset.range n`. -/
theorem foldl_add_range (g : ℕ → ℚ) : ∀ (n : ℕ) (init : ℚ),
    (List.range n).foldl (fun acc i => acc + g i) init =
      init + ∑ i in Finset.range n, g i := by
  intro n
  induction n with
  | zero => intro init; simp
  | succ m ih =>
    intro init
    rw [List.range_succ, List.foldl_append, ih, Finset.sum_range_succ]
    simp [List.foldl]
    ring

/-- A freshly created windowed counter reads zero at any time. -/
theorem windowedCounter.get_new (now w cnt t : Nat) :
    (windowedCounter.new now w cnt).get t = 0 := by
  simp [windowedCounter.new, windowedCounter.get, List.map_replicate, List.sum_replicate]

/-- Any index of a replicated array of fresh counters reads zero. -/
theorem counterVal_replicate_new (n nc w b i t : Nat) :
    counterVal (List.replicate n (windowedCounter.new nc w b)) i t = 0 := by
  unfold counterVal
  rcases Nat.lt_or_ge i n with h | h
  · rw [List.getElem?_eq_getElem (by simpa using h)]
    simp [List.getElem_replicate, windowedCounter.get_new]
  · rw [List.getElem?_eq_none (by simpa using h)]

/-- Setting entry `i` of a list changes a sum of a mapped function by
replacing the old entry's contribution with the new one. -/
theorem sum_map_set (f : Nat × Nat → Nat) :
    ∀ (l : List (Nat × Nat)) (i : Nat) (a : Nat × Nat), i < l.length →
      ((l.set i a).map f).sum + f (l.getD i (0, 0)) = (l.map f).sum + f a := by
  intro l
  induction l with
  | nil => intro i a h; simp at h
  | cons x xs ih =>
    intro i a h
    cases i with
    | zero => simp [List.set, List.getD]; omega
    | succ j =>
      have hj : j < xs.length := by simpa using h
      have := ih j a hj
      simp [List.set, List.getD] at this ⊢
      omega

/-- The slot that `add` at time `t` will hit is in a clean state: it already
holds `t`'s bucket, or a bucket old enough to have fallen out of the window,
or a zero count. This holds for every counter produced by `new` and
maintained by `add` under monotone time; it rules out the aliasing case in
which a still-visible older bucket is overwritten. -/
def slotOK (c : windowedCounter) (t : Nat) : Prop :=
  let b := t / c.width
  let s := c.slots.getD (b % c.buckets) (0, 0)
  s.1 = b ∨ s.1 + c.buckets ≤ b ∨ s.2 = 0

instance (c : windowedCounter) (t : Nat) : Decidable (slotOK c t) := by
  unfold slotOK; infer_instance

/-- Adding one event at time `t` raises the windowed reading at the same `t`
by exactly one, provided the counter is well-formed (slot array of length
`buckets`, at least one bucket) and the written slot is clean. -/
theorem windowedCounter.get_add_one (c : windowedCounter) (t : Nat)
    (hlen : c.slots.length = c.buckets) (hpos : 0 < c.buckets)
    (hslot : slotOK c t) :
    (c.add t 1).get t = c.get t + 1 := by
  unfold slotOK at hslot
  unfold windowedCounter.add windowedCounter.get
  dsimp only at hslot ⊢
  generalize hB : t / c.width = b at hslot ⊢
  generalize hS : c.slots.getD (b % c.buckets) (0, 0) = s at hslot ⊢
  have hilt : b % c.buckets < c.slots.length := by
    rw [hlen]; exact Nat.mod_lt _ hpos
  have hsum := sum_map_set (fun q => if b < q.1 + c.buckets then q.2 else 0)
    c.slots (b % c.buckets) (b, (if s.1 = b then s.2 else 0) + 1) hilt
  rw [hS] at hsum
  dsimp only at hsum
  rw [if_pos (Nat.lt_add_of_pos_right hpos)] at hsum
  rcases hslot with h1 | h2 | h3
  · have hj : (if s.1 = b then s.2 else 0) = s.2 := if_pos h1
    have hold : (if b < s.1 + c.buckets then s.2 else 0) = s.2 := by
      rw [h1, if_pos (Nat.lt_add_of_pos_right hpos)]
    omega
  · have hne : s.1 ≠ b := by omega
    have hj : (if s.1 = b then s.2 else 0) = 0 := if_neg hne
    have hold : (if b < s.1 + c.buckets then s.2 else 0) = 0 :=
      if_neg (by omega : ¬ b < s.1 + c.buckets)
    omega
  · have hj : (if s.1 = b then s.2 else 0) = 0 := by
      rw [h3]; exact ite_self 0
    have hold : (if b < s.1 + c.buckets then s.2 else 0) = 0 := by
      rw [h3]; exact ite_self 0
    omega

/-! ## Claim theorems -/

/-- Closed form of `throttleRejectionProbability`: the running fold over the
higher priorities equals the explicit sum. -/
theorem throttleRejectionProbability_eq (th : AdaptiveThrottle) (p now : Nat) :
    throttleRejectionProbability th p now =
      max 0
        (((((counterVal th.requests p now : ℚ) +
              ∑ i in Finset.range p,
                ((counterVal th.requests i now : ℚ) - (counterVal th.accepts i now : ℚ))) -
            th.k * (counterVal th.accepts p now : ℚ)) /
          (((counterVal th.requests p now : ℚ) +
              ∑ i in Finset.range p,
                ((counterVal th.requests i now : ℚ) - (counterVal th.accepts i now : ℚ))) +
            th.minPerWindow))) := by
  unfold throttleRejectionProbability rejectionProbability
  dsimp only
  rw [foldl_add_range
    (fun i => ((counterVal th.requests i now : ℚ) - (counterVal th.accepts i now : ℚ))) p]

/-- C1: at every `WithAdaptiveThrottle` call with priority `p`, the rejection
probability follows the formula `max(0, (requests - k*accepts) /
(requests + minPerWindow))`, where `accepts` is the accept-counter value for
`p` and `requests` is the request-counter value for `p` plus the sum, over
every higher priority `i < p`, of that priority's request-minus-accept
counter difference at the same query time `now`. (`withAdaptiveThrottle`
invokes `throttleRejectionProbability` verbatim for its decision.) -/
theorem rejection_probability_formula (th : AdaptiveThrottle) (p now : Nat) :
    throttleRejectionProbability th p now =
      max 0
        (((((counterVal th.requests p now : ℚ) +
              ∑ i in Finset.range p,
                ((counterVal th.requests i now : ℚ) - (counterVal th.accepts i now : ℚ))) -
            th.k * (counterVal th.accepts p now : ℚ)) /
          (((counterVal th.requests p now : ℚ) +
              ∑ i in Finset.range p,
                ((counterVal th.requests i now : ℚ) - (counterVal th.accepts i now : ℚ))) +
            th.minPerWindow))) :=
  throttleRejectionProbability_eq th p now

/-- C4: for all non-negative counter values `requests` and `accepts` and
`k ≥ 0`, the computed rejection probability is at least 0, and strictly less
than 1 whenever `minPerWindow > 0`. -/
theorem rejectionProbability_bounds (k m requests accepts : ℚ)
    (hreq : 0 ≤ requests) (hacc : 0 ≤ accepts) (hk : 0 ≤ k) :
    0 ≤ rejectionProbability k m requests accepts ∧
      (0 < m → rejectionProbability k m requests accepts < 1) := by
  constructor
  · exact le_max_left _ _
  · intro hm
    unfold rejectionProbability
    have hden : 0 < requests + m := by linarith
    have hlt : (requests - k * accepts) / (requests + m) < 1 := by
      rw [div_lt_one hden]
      nlinarith
    exact max_lt one_pos hlt

theorem rejectionProbability_bounds_witness :
    0 ≤ rejectionProbability 2 60 5 1 ∧
      (0 < (60 : ℚ) → rejectionProbability 2 60 5 1 < 1) :=
  rejectionProbability_bounds 2 60 5 1 (by norm_num) (by norm_num) (by norm_num)

/-- C5: the rejection-probability function is monotone. With `k ≥ 0`,
`minPerWindow > 0` and non-negative counter values: for fixed `accepts`,
increasing `requests` never decreases the probability; for fixed `requests`,
increasing `accepts` never increases it. -/
theorem rejectionProbability_monotone (k m accepts requests r1 r2 a1 a2 : ℚ)
    (hk : 0 ≤ k) (hm : 0 < m) (hacc : 0 ≤ accepts) (hreq : 0 ≤ requests)
    (hr1 : 0 ≤ r1) (hr12 : r1 ≤ r2) (ha1 : 0 ≤ a1) (ha12 : a1 ≤ a2) :
    rejectionProbability k m r1 accepts ≤ rejectionProbability k m r2 accepts ∧
      rejectionProbability k m requests a2 ≤ rejectionProbability k m requests a1 := by
  constructor
  · unfold rejectionProbability
    apply max_le_max le_rfl
    rw [div_le_div_iff₀ (by linarith) (by linarith)]
    nlinarith [mul_nonneg (sub_nonneg.mpr hr12) hm.le,
      mul_nonneg (sub_nonneg.mpr hr12) (mul_nonneg hk hacc)]
  · unfold rejectionProbability
    apply max_le_max le_rfl
    rw [div_le_div_iff_of_pos_right (by linarith : (0 : ℚ) < requests + m)]
    nlinarith

theorem rejectionProbability_monotone_witness :
    rejectionProbability 2 60 3 1 ≤ rejectionProbability 2 60 5 1 ∧
      rejectionProbability 2 60 7 4 ≤ rejectionProbability 2 60 7 1 :=
  rejectionProbability_monotone 2 60 1 7 3 5 1 4 (by norm_num) (by norm_num)
    (by norm_num) (by norm_num) (by norm_num) (by norm_num) (by norm_num) (by norm_num)

/-- A throttle value used as the (never-relevant) default of `Option.getD`
when concretely instantiating theorems about constructed throttles. -/
def fallbackThrottle : AdaptiveThrottle :=
  { k := 0, minPerWindow := 0, isErrorAccepted := DefaultAcceptedErrors
    requests := [], accepts := [] }

/-- C6 counterexample: `NewAdaptiveThrottle` with `priorities = 0` does NOT
fail at construction — `make([]windowedCounter, 0)` succeeds in Go — so the
claim that every non-positive priority count is a construction-time fatal
condition is false at 0. -/
theorem newAdaptiveThrottle_zero_priorities_succeeds :
    (NewAdaptiveThrottle 0 [] 0).isSome = true := rfl

/-- C6 (amended): construction fails fatally exactly for a negative number
of priorities (Go's `make` panics on a negative length); `priorities = 0`
constructs successfully (though no priority is then in range). -/
theorem newAdaptiveThrottle_none_iff_negative (priorities : Int)
    (options : List AdaptiveThrottleOption) (now : Nat) :
    NewAdaptiveThrottle priorities options now = none ↔ priorities < 0 := by
  unfold NewAdaptiveThrottle
  dsimp only
  split_ifs with h
  · simp [h]
  · simp [h]

/-- C7: calling `WithAdaptiveThrottle` on a constructed throttle with a
priority outside `[0, priorities)` fails fatally (panics at the slice
index), modelled as `none`, rather than proceeding or returning a normal
error. -/
theorem withAdaptiveThrottle_out_of_range_panics {T : Type}
    (priorities : Int) (options : List AdaptiveThrottleOption) (nowC : Nat)
    (th : AdaptiveThrottle)
    (hth : NewAdaptiveThrottle priorities options nowC = some th)
    (p : Priority) (hout : p < 0 ∨ priorities ≤ p)
    (r : ℚ) (now now2 : Nat) (fval : T) (ferr : Option GoError) (zero : T) :
    withAdaptiveThrottle th p r now now2 fval ferr zero = none := by
  unfold NewAdaptiveThrottle at hth
  dsimp only at hth
  by_cases hneg : priorities < 0
  · rw [if_pos hneg] at hth
    exact absurd hth (by simp)
  · rw [if_neg hneg] at hth
    have hreq : th.requests.length = priorities.toNat := by
      have hth2 := Option.some.inj hth
      rw [← hth2]
      simp
    unfold withAdaptiveThrottle
    rw [if_neg]
    rintro ⟨hp0, hplen, -⟩
    rw [hreq] at hplen
    have hp0i : (0 : Int) ≤ p := hp0
    rcases hout with h | h
    · exact absurd hp0i (not_le.mpr (show p < (0 : Int) from h))
    · have hi : (priorities : Int) ≤ p := h
      omega

theorem withAdaptiveThrottle_out_of_range_witness :
    withAdaptiveThrottle (T := Nat)
        ((NewAdaptiveThrottle 2 [] 0).getD fallbackThrottle) 5 0 0 0 0 none 0 = none :=
  withAdaptiveThrottle_out_of_range_panics 2 [] 0 _ rfl 5 (Or.inr (by decide))
    0 0 0 0 none 0

/-- C2: a self-rejected call (`r < rejectionProbability`) returns the zero
value with the client-side rejection error, never invokes `f`, bumps the
request counter of priority `p` by exactly one (its windowed reading at the
same instant grows by 1), leaves the accept counters untouched, and leaves
every other priority's request counter untouched. The counter-increment
conjunct needs the request counter of `p` to be well-formed (slot array of
length `buckets`, a positive bucket count, and a clean target slot), which
holds for counters built by `newWindowedCounter` under monotone time. -/
theorem withAdaptiveThrottle_self_rejection {T : Type} (th : AdaptiveThrottle)
    (p : Priority) (r : ℚ) (now now2 : Nat) (fval : T) (ferr : Option GoError)
    (zero : T)
    (hp0 : 0 ≤ p) (hlr : p.toNat < th.requests.length)
    (hla : p.toNat < th.accepts.length)
    (hrej : r < throttleRejectionProbability th p.toNat now)
    (hlen : (th.requests.getD p.toNat ⟨0, 0, []⟩).slots.length =
      (th.requests.getD p.toNat ⟨0, 0, []⟩).buckets)
    (hpos : 0 < (th.requests.getD p.toNat ⟨0, 0, []⟩).buckets)
    (hslot : slotOK (th.requests.getD p.toNat ⟨0, 0, []⟩) now) :
    ∃ o : ThrottleOutcome T,
      withAdaptiveThrottle th p r now now2 fval ferr zero = some o ∧
      o.val = zero ∧
      o.err = some DefaultClientSideRejectionError ∧
      o.fCalls = 0 ∧
      o.st.accepts = th.accepts ∧
      (∀ q : Nat, q ≠ p.toNat → o.st.requests[q]? = th.requests[q]?) ∧
      counterVal o.st.requests p.toNat now = counterVal th.requests p.toNat now + 1 := by
  unfold withAdaptiveThrottle
  rw [if_pos ⟨hp0, hlr, hla⟩, if_pos hrej]
  refine ⟨_, rfl, rfl, rfl, rfl, rfl, ?_, ?_⟩
  · exact fun q hq => List.getElem?_set_ne (Ne.symm hq)
  · have hC : th.requests.getD p.toNat ⟨0, 0, []⟩ = th.requests[p.toNat] :=
      List.getD_eq_getElem _ _ hlr
    unfold counterVal
    rw [List.getElem?_set_eq_of_lt _ hlr, List.getElem?_eq_getElem hlr]
    dsimp only
    rw [← hC]
    exact windowedCounter.get_add_one _ now hlen hpos hslot

/-- A concrete throttle with one priority, five requests and zero accepts on
record, used to instantiate the self-rejection theorem. -/
def sampleThrottle : AdaptiveThrottle :=
  { k := 2, minPerWindow := 1, isErrorAccepted := DefaultAcceptedErrors
    requests := [⟨1, 1, [(0, 5)]⟩], accepts := [⟨1, 1, [(0, 0)]⟩] }

theorem withAdaptiveThrottle_self_rejection_witness :
    ∃ o : ThrottleOutcome Nat,
      withAdaptiveThrottle sampleThrottle 0 (1 / 2) 0 0 7 none 9 = some o ∧
      o.val = 9 ∧
      o.err = some DefaultClientSideRejectionError ∧
      o.fCalls = 0 ∧
      o.st.accepts = sampleThrottle.accepts ∧
      (∀ q : Nat, q ≠ (0 : Priority).toNat → o.st.requests[q]? = sampleThrottle.requests[q]?) ∧
      counterVal o.st.requests (0 : Priority).toNat 0 =
        counterVal sampleThrottle.requests (0 : Priority).toNat 0 + 1 :=
  withAdaptiveThrottle_self_rejection sampleThrottle 0 (1 / 2) 0 0 7 none 9
    (by decide) (by decide) (by decide)
    (by norm_num [throttleRejectionProbability, rejectionProbability, counterVal,
      sampleThrottle, windowedCounter.get])
    (by decide) (by decide) (by decide)

/-- C3: a call that is not self-rejected invokes `f` exactly once, returns
its `(result, error)` pair completely unchanged, records a request for
priority `p` at the post-call time, and additionally records an accept
exactly when `f`'s error is nil or satisfies `isErrorAccepted`. -/
theorem withAdaptiveThrottle_passthrough {T : Type} (th : AdaptiveThrottle)
    (p : Priority) (r : ℚ) (now now2 : Nat) (fval : T) (ferr : Option GoError)
    (zero : T)
    (hp0 : 0 ≤ p) (hlr : p.toNat < th.requests.length)
    (hla : p.toNat < th.accepts.length)
    (hnorej : ¬ r < throttleRejectionProbability th p.toNat now) :
    ∃ o : ThrottleOutcome T,
      withAdaptiveThrottle th p r now now2 fval ferr zero = some o ∧
      o.fCalls = 1 ∧
      o.val = fval ∧
      o.err = ferr ∧
      o.st.requests =
        th.requests.set p.toNat ((th.requests.getD p.toNat ⟨0, 0, []⟩).add now2 1) ∧
      o.st.accepts =
        (if errAccepted th.isErrorAccepted ferr then
          th.accepts.set p.toNat ((th.accepts.getD p.toNat ⟨0, 0, []⟩).add now2 1)
        else th.accepts) ∧
      (errAccepted th.isErrorAccepted ferr = true ↔
        (ferr = none ∨ ∃ e, ferr = some e ∧ th.isErrorAccepted e = true)) := by
  unfold withAdaptiveThrottle
  rw [if_pos ⟨hp0, hlr, hla⟩, if_neg hnorej]
  refine ⟨_, rfl, rfl, rfl, rfl, rfl, rfl, ?_⟩
  cases ferr with
  | none => simp [errAccepted]
  | some e => simp [errAccepted]

theorem withAdaptiveThrottle_passthrough_witness :
    ∃ o : ThrottleOutcome Nat,
      withAdaptiveThrottle sampleThrottle 0 (9 / 10) 0 3 7 (some ⟨FaultKind.other, 0, 0⟩) 9 =
        some o ∧
      o.fCalls = 1 ∧
      o.val = 7 ∧
      o.err = some ⟨FaultKind.other, 0, 0⟩ ∧
      o.st.requests =
        sampleThrottle.requests.set (0 : Priority).toNat
          ((sampleThrottle.requests.getD (0 : Priority).toNat ⟨0, 0, []⟩).add 3 1) ∧
      o.st.accepts =
        (if errAccepted sampleThrottle.isErrorAccepted (some ⟨FaultKind.other, 0, 0⟩) then
          sampleThrottle.accepts.set (0 : Priority).toNat
            ((sampleThrottle.accepts.getD (0 : Priority).toNat ⟨0, 0, []⟩).add 3 1)
        else sampleThrottle.accepts) ∧
      (errAccepted sampleThrottle.isErrorAccepted (some ⟨FaultKind.other, 0, 0⟩) = true ↔
        (some ⟨FaultKind.other, 0, 0⟩ = (none : Option GoError) ∨
          ∃ e, (some ⟨FaultKind.other, 0, 0⟩ : Option GoError) = some e ∧
            sampleThrottle.isErrorAccepted e = true)) :=
  withAdaptiveThrottle_passthrough sampleThrottle 0 (9 / 10) 0 3 7
    (some ⟨FaultKind.other, 0, 0⟩) 9 (by decide) (by decide) (by decide)
    (by norm_num [throttleRejectionProbability, rejectionProbability, counterVal,
      sampleThrottle, windowedCounter.get])

/-- C8: priority cascading. Between two states of a two-priority throttle
(same `k` and `minPerWindow ≥ 0`) in which priority 1 has zero requests and
zero accepts on record, the rejection probability computed for priority 1 is
strictly greater when priority 0 carries a positive non-accepted (failed)
request count than when all of priority 0's requests were accepted. -/
theorem cascading_rejection_probability (th th2 : AdaptiveThrottle) (now : Nat)
    (hk : th2.k = th.k) (hm : th2.minPerWindow = th.minPerWindow)
    (hm0 : 0 ≤ th.minPerWindow)
    (hl1 : th.requests.length = 2) (hl2 : th.accepts.length = 2)
    (hl3 : th2.requests.length = 2) (hl4 : th2.accepts.length = 2)
    (h1r : counterVal th.requests 1 now = 0) (h1a : counterVal th.accepts 1 now = 0)
    (h2r : counterVal th2.requests 1 now = 0) (h2a : counterVal th2.accepts 1 now = 0)
    (hfail : counterVal th.accepts 0 now < counterVal th.requests 0 now)
    (hok : counterVal th2.accepts 0 now = counterVal th2.requests 0 now) :
    throttleRejectionProbability th2 1 now < throttleRejectionProbability th 1 now := by
  rw [throttleRejectionProbability_eq th2 1 now, throttleRejectionProbability_eq th 1 now]
  simp only [Finset.sum_range_one, h1r, h1a, h2r, h2a, hok, hk, hm, Nat.cast_zero,
    sub_self, mul_zero, sub_zero, add_zero, zero_add]
  have hd : (0 : ℚ) <
      (counterVal th.requests 0 now : ℚ) - (counterVal th.accepts 0 now : ℚ) := by
    have := (Nat.cast_lt (α := ℚ)).mpr hfail
    linarith
  have hfrac : (0 : ℚ) <
      ((counterVal th.requests 0 now : ℚ) - (counterVal th.accepts 0 now : ℚ)) /
        (((counterVal th.requests 0 now : ℚ) - (counterVal th.accepts 0 now : ℚ)) +
          th.minPerWindow) :=
    div_pos hd (by linarith)
  calc max 0 ((0 : ℚ) / th.minPerWindow) = 0 := by
        rw [zero_div, max_self]
    _ < _ := lt_max_of_lt_right hfrac

/-- A two-priority state where priority 0 saw 10 requests of which only 2
were accepted, and priority 1 saw none. -/
def cascadeThrottleFailing : AdaptiveThrottle :=
  { k := 2, minPerWindow := 60, isErrorAccepted := DefaultAcceptedErrors
    requests := [⟨1, 1, [(0, 10)]⟩, ⟨1, 1, [(0, 0)]⟩]
    accepts := [⟨1, 1, [(0, 2)]⟩, ⟨1, 1, [(0, 0)]⟩] }

/-- The same state except that all 10 of priority 0's requests were
accepted. -/
def cascadeThrottleHealthy : AdaptiveThrottle :=
  { k := 2, minPerWindow := 60, isErrorAccepted := DefaultAcceptedErrors
    requests := [⟨1, 1, [(0, 10)]⟩, ⟨1, 1, [(0, 0)]⟩]
    accepts := [⟨1, 1, [(0, 10)]⟩, ⟨1, 1, [(0, 0)]⟩] }

theorem cascading_rejection_probability_witness :
    throttleRejectionProbability cascadeThrottleHealthy 1 0 <
      throttleRejectionProbability cascadeThrottleFailing 1 0 :=
  cascading_rejection_probability cascadeThrottleFailing cascadeThrottleHealthy 0
    rfl rfl (by norm_num [cascadeThrottleFailing]) (by decide) (by decide) (by decide)
    (by decide) (by decide) (by decide) (by decide) (by decide) (by decide) (by decide)

/-- C9: with no option overrides, the constructed throttle has `k = 2`,
`minPerWindow = 1 * 60 = 60` (default minimum rate times the window length
in seconds), counters spanning a 60-second window as 10 buckets of 6-second
(6·10^9 ns) width, and the default error-acceptance predicate, which accepts
exactly the cancellation, unauthenticated, permission-denied, bad-request,
aborted, not-found, failed-precondition and unimplemented conditions. -/
theorem newAdaptiveThrottle_defaults (priorities : Int) (now : Nat)
    (hp : ¬ priorities < 0) :
    ∃ th : AdaptiveThrottle,
      NewAdaptiveThrottle priorities [] now = some th ∧
      th.k = 2 ∧
      th.minPerWindow = 60 ∧
      th.requests =
        List.replicate priorities.toNat (windowedCounter.new now 6000000000 10) ∧
      th.accepts =
        List.replicate priorities.toNat (windowedCounter.new now 6000000000 10) ∧
      th.isErrorAccepted = DefaultAcceptedErrors ∧
      (∀ e : GoError, DefaultAcceptedErrors e = true ↔
        (e.kind = FaultKind.canceled ∨ e.kind = FaultKind.unauthenticated ∨
          e.kind = FaultKind.permissionDenied ∨ e.kind = FaultKind.bad ∨
          e.kind = FaultKind.aborted ∨ e.kind = FaultKind.notFound ∨
          e.kind = FaultKind.failedPrecondition ∨ e.kind = FaultKind.unimplemented)) := by
  unfold NewAdaptiveThrottle
  dsimp only
  rw [if_neg hp]
  refine ⟨_, rfl, rfl, ?_, ?_, ?_, rfl, ?_⟩
  · show (1 : ℚ) * durationSeconds timeMinute = 60
    norm_num [durationSeconds, timeMinute]
  · show List.replicate _ (windowedCounter.new now (timeMinute / 10) 10) = _
    norm_num [timeMinute]
  · show List.replicate _ (windowedCounter.new now (timeMinute / 10) 10) = _
    norm_num [timeMinute]
  · intro e
    simp only [DefaultAcceptedErrors, Bool.or_eq_true, decide_eq_true_eq]
    tauto

theorem newAdaptiveThrottle_defaults_witness :
    ∃ th : AdaptiveThrottle,
      NewAdaptiveThrottle 3 [] 0 = some th ∧
      th.k = 2 ∧
      th.minPerWindow = 60 ∧
      th.requests = List.replicate (3 : Int).toNat (windowedCounter.new 0 6000000000 10) ∧
      th.accepts = List.replicate (3 : Int).toNat (windowedCounter.new 0 6000000000 10) ∧
      th.isErrorAccepted = DefaultAcceptedErrors ∧
      (∀ e : GoError, DefaultAcceptedErrors e = true ↔
        (e.kind = FaultKind.canceled ∨ e.kind = FaultKind.unauthenticated ∨
          e.kind = FaultKind.permissionDenied ∨ e.kind = FaultKind.bad ∨
          e.kind = FaultKind.aborted ∨ e.kind = FaultKind.notFound ∨
          e.kind = FaultKind.failedPrecondition ∨ e.kind = FaultKind.unimplemented)) :=
  newAdaptiveThrottle_defaults 3 0 (by decide)

/-- The value of `rejectionProbability` with both counter readings at zero is zero, for
any `k` and any `minPerWindow` (in the `ℚ` model `0/0 = 0`, which like Go's
NaN in the `minPerWindow = 0` case never compares below the random draw). -/
theorem rejectionProbability_zero (k m : ℚ) : rejectionProbability k m 0 0 = 0 := by
  unfold rejectionProbability
  rw [mul_zero, sub_zero, zero_div, max_self]

/-- On a freshly constructed throttle all counters read zero, so the
rejection probability is zero for every priority. -/
theorem throttleRejectionProbability_fresh (priorities : Int)
    (options : List AdaptiveThrottleOption) (nowC : Nat) (th : AdaptiveThrottle)
    (hth : NewAdaptiveThrottle priorities options nowC = some th)
    (p now : Nat) :
    throttleRejectionProbability th p now = 0 := by
  unfold NewAdaptiveThrottle at hth
  dsimp only at hth
  by_cases hneg : priorities < 0
  · rw [if_pos hneg] at hth
    exact absurd hth (by simp)
  · rw [if_neg hneg] at hth
    have hth2 := Option.some.inj hth
    rw [throttleRejectionProbability_eq, ← hth2]
    simp [counterVal_replicate_new, rejectionProbability]

/-- C10: on a freshly constructed throttle, the rejection probability of any
in-range priority is 0 (in the `ℚ` model this covers the `minPerWindow = 0`
configuration too, where Go computes NaN: neither value ever compares below
the non-negative random draw), so the first call is never self-rejected:
`work` is invoked and its pair returned. -/
theorem fresh_throttle_first_call {T : Type} (priorities : Int)
    (options : List AdaptiveThrottleOption) (nowC : Nat) (th : AdaptiveThrottle)
    (hth : NewAdaptiveThrottle priorities options nowC = some th)
    (p : Priority) (r : ℚ) (now now2 : Nat) (fval : T) (ferr : Option GoError)
    (zero : T)
    (hp0 : 0 ≤ p) (hp : p < priorities) (hr : 0 ≤ r) :
    throttleRejectionProbability th p.toNat now = 0 ∧
    ∃ o : ThrottleOutcome T,
      withAdaptiveThrottle th p r now now2 fval ferr zero = some o ∧
      o.fCalls = 1 ∧ o.val = fval ∧ o.err = ferr := by
  have hprob :=
    throttleRejectionProbability_fresh priorities options nowC th hth p.toNat now
  refine ⟨hprob, ?_⟩
  have hlen : th.requests.length = priorities.toNat ∧
      th.accepts.length = priorities.toNat := by
    unfold NewAdaptiveThrottle at hth
    dsimp only at hth
    by_cases hneg : priorities < 0
    · rw [if_pos hneg] at hth
      exact absurd hth (by simp)
    · rw [if_neg hneg] at hth
      have h2 := Option.some.inj hth
      rw [← h2]
      simp
  have key : ∀ x y : Int, 0 ≤ x → x < y → x.toNat < y.toNat := by
    intro x y hx hxy
    omega
  have hlr : p.toNat < th.requests.length := by
    rw [hlen.1]
    exact key p priorities hp0 hp
  have hla : p.toNat < th.accepts.length := by
    rw [hlen.2]
    exact key p priorities hp0 hp
  unfold withAdaptiveThrottle
  rw [if_pos ⟨hp0, hlr, hla⟩, if_neg (by rw [hprob]; exact not_lt.mpr hr)]
  exact ⟨_, rfl, rfl, rfl, rfl⟩

theorem fresh_throttle_first_call_witness :
    throttleRejectionProbability ((NewAdaptiveThrottle 1 [] 0).getD fallbackThrottle)
      (0 : Priority).toNat 5 = 0 ∧
    ∃ o : ThrottleOutcome Nat,
      withAdaptiveThrottle ((NewAdaptiveThrottle 1 [] 0).getD fallbackThrottle)
        0 0 5 6 42 none 0 = some o ∧
      o.fCalls = 1 ∧ o.val = 42 ∧ o.err = none :=
  fresh_throttle_first_call 1 [] 0 _ rfl 0 0 5 6 42 none 0
    (by decide) (by decide) (le_refl 0)
